import Mathlib

/-!
Verification of the question-line parser and presentation logic of the
AI interview-question generator (`app.py`).

The Python code is shallowly embedded: lines are `List Char`, Python's
`str.strip`, `str.split(sep)`, `str.find` and slicing are modelled by
executable Lean functions with the same semantics on the inputs the
program handles, and the Streamlit control flow around the external
generation call is modelled by explicit state passing.
-/

namespace AIInterview

/-- The `InterviewQuestion` dataclass of `app.py`: `category`, `question`,
`difficulty` and `focus_area` are plain strings (the `Literal` annotation on
`difficulty` is not enforced by the source). -/
structure InterviewQuestion where
  category : String
  question : String
  difficulty : String
  focus_area : String
deriving DecidableEq, Repr

/-- Characters removed by Python's `str.strip()` (ASCII whitespace). -/
def pyIsSpace (c : Char) : Bool :=
  c = ' ' || c = '\t' || c = '\n' || c = '\r' || c = '\x0b' || c = '\x0c'

/-- Python `s.lstrip()` on a list of characters. -/
def lstrip (s : List Char) : List Char := s.dropWhile pyIsSpace

/-- Python `s.rstrip()` on a list of characters. -/
def rstrip (s : List Char) : List Char := (s.reverse.dropWhile pyIsSpace).reverse

/-- Python `s.strip()` on a list of characters. -/
def pyStrip (s : List Char) : List Char := rstrip (lstrip s)

/-- Python `s.split(sep)` for a one-character separator: splits at every
occurrence of `sep`, keeping empty pieces, and `"".split(sep) = [""]`. -/
def pySplit (sep : Char) : List Char → List (List Char)
  | [] => [[]]
  | c :: rest =>
    if c = sep then [] :: pySplit sep rest
    else
      match pySplit sep rest with
      | [] => [[c]]
      | h :: t => (c :: h) :: t

/-- Index of the first occurrence of `c` in `line`, as computed by
`line.find(c)` in the source (the source only uses the result after checking
`c in line`, so the `-1` case never matters and `List.findIdx` is faithful). -/
def pyFind (c : Char) (line : List Char) : Nat := line.findIdx (· = c)

/-- The `bracket_start = line.find('[')` of `parse_gemini_questions`. -/
def bracket_start (line : List Char) : Nat := pyFind '[' line

/-- The `bracket_end = line.find(']')` of `parse_gemini_questions`. -/
def bracket_end (line : List Char) : Nat := pyFind ']' line

/-- The `bracket_content = line[bracket_start+1:bracket_end]` slice of
`parse_gemini_questions` (Python slicing yields `""` when the stop index is
not past the start index, matching truncated `Nat` subtraction). -/
def bracket_content (line : List Char) : List Char :=
  (line.drop (bracket_start line + 1)).take (bracket_end line - (bracket_start line + 1))

/-- The `question_text = line[bracket_end+1:].strip()` of
`parse_gemini_questions`. -/
def question_text (line : List Char) : List Char :=
  pyStrip (line.drop (bracket_end line + 1))

/-- The `parts = [part.strip() for part in bracket_content.split('|')]` of
`parse_gemini_questions`. -/
def header_parts (line : List Char) : List (List Char) :=
  (pySplit '|' (bracket_content line)).map pyStrip

/-- One iteration of the `for line in lines` loop of
`parse_gemini_questions`: strip the line, skip it when empty, and when it
contains `[`, `]` and `|`, slice out the first-bracket header and the
trailing question text and build a record when the header has at least three
parts and the question text is non-empty.  The `try/except` of the source
can never fire (indexing happens only after the length check), and the
redundant `bracket_start != -1 and bracket_end != -1` test is always true
after the membership checks. -/
def parseLine (rawLine : List Char) : Option InterviewQuestion :=
  let line := pyStrip rawLine
  if line = [] then none
  else if '[' ∈ line ∧ ']' ∈ line ∧ '|' ∈ line then
    let parts := header_parts line
    let qt := question_text line
    if 3 ≤ parts.length ∧ qt ≠ [] then
      some { category := String.mk (parts.getD 0 [])
             question := String.mk qt
             difficulty := String.mk (parts.getD 1 [])
             focus_area := String.mk (parts.getD 2 []) }
    else none
  else none

/-- The hardcoded `fallback_questions` list of `parse_gemini_questions`. -/
def fallback_questions : List InterviewQuestion :=
  [ { category := "Technical", question := "Tell me about your technical background and the technologies you\x27re most comfortable with.", difficulty := "Easy", focus_area := "General Technical" },
    { category := "Experience", question := "Walk me through a challenging project you\x27ve worked on recently.", difficulty := "Medium", focus_area := "Project Experience" },
    { category := "Behavioral", question := "How do you approach learning new technologies or skills?", difficulty := "Easy", focus_area := "Learning Ability" },
    { category := "Technical", question := "Describe your experience with the main technologies mentioned in this job description.", difficulty := "Medium", focus_area := "Job-Specific Skills" },
    { category := "Behavioral", question := "Tell me about a time you had to solve a problem under pressure.", difficulty := "Medium", focus_area := "Problem Solving" },
    { category := "Experience", question := "What\x27s the most complex technical challenge you\x27ve faced and how did you overcome it?", difficulty := "Hard", focus_area := "Technical Problem Solving" },
    { category := "Technical", question := "How do you ensure code quality and maintainability in your projects?", difficulty := "Medium", focus_area := "Best Practices" },
    { category := "Behavioral", question := "Describe a situation where you had to collaborate with team members who had different opinions.", difficulty := "Medium", focus_area := "Teamwork" },
    { category := "Experience", question := "Tell me about a time you had to quickly adapt to new requirements or changes.", difficulty := "Medium", focus_area := "Adaptability" },
    { category := "Technical", question := "What development tools and methodologies do you prefer and why?", difficulty := "Easy", focus_area := "Development Process" } ]

/-- The records produced by the per-line loop of `parse_gemini_questions`,
in line order (`questions` just before the fallback step). -/
def parsedQuestions (response_text : String) : List InterviewQuestion :=
  (pySplit '\n' response_text.data).filterMap parseLine

/-- The `questions` list of `parse_gemini_questions` after the fallback
step: when fewer than 3 records were parsed, the source extends the list
with `fallback_questions[:max(0, num_questions - len(questions))]`
(truncated `Nat` subtraction is exactly `max(0, ...)` on integers). -/
def questionsAfterFallback (response_text : String) (num_questions : Nat) :
    List InterviewQuestion :=
  let questions := parsedQuestions response_text
  if questions.length < 3 then
    questions ++ fallback_questions.take (num_questions - questions.length)
  else questions

/-- The `parse_gemini_questions(response_text, num_questions)` function of
`app.py`: parse the lines, backfill from the fallback list when fewer than 3
records were parsed, and return `questions[:num_questions] if questions
else []`. -/
def parse_gemini_questions (response_text : String) (num_questions : Nat) :
    List InterviewQuestion :=
  let questions := questionsAfterFallback response_text num_questions
  if questions = [] then [] else questions.take num_questions

/-- The session state relevant to question display: Streamlit's
`st.session_state.generated_questions` and `st.session_state.show_questions`. -/
structure AppState where
  generated_questions : List InterviewQuestion
  show_questions : Bool
deriving DecidableEq, Repr

/-- Models `generate_questions_with_gemini`: the outcome of the external
`model.generate_content(prompt)` call is passed in as
`response : Except String String` (`Except.error e` for any raised
exception).  On success the response text is parsed; on failure the source
runs `st.error(f"Error generating questions with Gemini: {str(e)}")` and
returns `[]`.  The second component collects the user-visible error
messages emitted by this function. -/
def generate_questions_with_gemini (response : Except String String)
    (num_questions : Nat) : List InterviewQuestion × List String :=
  match response with
  | Except.ok text => (parse_gemini_questions text num_questions, [])
  | Except.error e =>
    ([], [String.append "Error generating questions with Gemini: " e])

/-- Models the block of `main` that runs after `generate_questions_with_gemini`
returns: when the returned list is non-empty it is stored wholesale in
session state and `show_questions` is set; otherwise an error message is
shown and session state is not touched.  Returns the new state and the
user-visible error messages of the whole generation attempt. -/
def handleGeneration (s : AppState) (response : Except String String)
    (num_questions : Nat) : AppState × List String :=
  let result := generate_questions_with_gemini response num_questions
  if result.1 = [] then
    (s, result.2 ++ ["❌ Failed to generate questions. Please try again or check your inputs."])
  else
    ({ generated_questions := result.1, show_questions := true }, result.2)

/-- The filter block of `main`: starting from `questions`, filter by
`q.difficulty == difficulty_filter` when the difficulty selector is not
`"All"`, then by `q.category == category_filter` when the category selector
is not `"All"`. -/
def filter_questions (difficulty_filter category_filter : String)
    (questions : List InterviewQuestion) : List InterviewQuestion :=
  let filtered := questions
  let filtered :=
    if difficulty_filter ≠ "All" then
      filtered.filter (fun q => q.difficulty = difficulty_filter)
    else filtered
  let filtered :=
    if category_filter ≠ "All" then
      filtered.filter (fun q => q.category = category_filter)
    else filtered
  filtered

/-- One object of the JSON export built in `main`. -/
structure ExportRecord where
  question_number : Nat
  category : String
  question : String
  difficulty : String
  focus_area : String
deriving DecidableEq, Repr

/-- The list-of-objects JSON export of `main`:
`[{"question_number": i+1, ...} for i, q in enumerate(filtered_questions)]`. -/
def questions_json (filtered_questions : List InterviewQuestion) :
    List ExportRecord :=
  filtered_questions.enum.map (fun iq =>
    { question_number := iq.1 + 1
      category := iq.2.category
      question := iq.2.question
      difficulty := iq.2.difficulty
      focus_area := iq.2.focus_area })

/-! ## Helper lemmas about the Python string primitives -/

theorem rstrip_append_of_spaces {y b : List Char} (hb : ∀ x ∈ b, pyIsSpace x) :
    rstrip (y ++ b) = rstrip y := by
  unfold rstrip
  rw [List.reverse_append, List.dropWhile_append_of_pos]
  intro x hx
  exact hb x (List.mem_reverse.mp hx)

theorem pyStrip_append_of_spaces {y b : List Char} (hb : ∀ x ∈ b, pyIsSpace x) :
    pyStrip (y ++ b) = pyStrip y := by
  unfold pyStrip lstrip
  rw [List.dropWhile_append]
  by_cases h : (y.dropWhile pyIsSpace).isEmpty
  · rw [if_pos h]
    rw [List.isEmpty_iff] at h
    rw [h, List.dropWhile_eq_nil_iff.mpr hb]
  · rw [if_neg h]
    exact rstrip_append_of_spaces hb

theorem pyStrip_decomp (s : List Char) :
    ∃ a b, s = a ++ pyStrip s ++ b ∧
      (∀ x ∈ a, pyIsSpace x) ∧ (∀ x ∈ b, pyIsSpace x) := by
  refine ⟨s.takeWhile pyIsSpace, ((lstrip s).reverse.takeWhile pyIsSpace).reverse,
    ?_, ?_, ?_⟩
  · have h2 : (lstrip s).reverse.takeWhile pyIsSpace ++
        (lstrip s).reverse.dropWhile pyIsSpace = (lstrip s).reverse :=
      List.takeWhile_append_dropWhile pyIsSpace _
    have h3 : lstrip s =
        pyStrip s ++ ((lstrip s).reverse.takeWhile pyIsSpace).reverse := by
      have h4 := congrArg List.reverse h2
      rw [List.reverse_append, List.reverse_reverse] at h4
      exact h4.symm
    conv_lhs => rw [← List.takeWhile_append_dropWhile pyIsSpace s]
    rw [List.append_assoc]
    exact congrArg _ h3
  · intro x hx
    exact List.mem_takeWhile_imp hx
  · intro x hx
    exact List.mem_takeWhile_imp (List.mem_reverse.mp hx)

theorem pyFind_space_decomp {a m b : List Char} {c : Char}
    (ha : ∀ x ∈ a, pyIsSpace x) (hc : pyIsSpace c = false) (hm : c ∈ m) :
    pyFind c (a ++ m ++ b) = a.length + pyFind c m := by
  unfold pyFind
  rw [List.append_assoc, List.findIdx_append]
  have hA : a.findIdx (fun x => x = c) = a.length := by
    apply List.findIdx_eq_length_of_false
    intro x hx
    simp only [decide_eq_false_iff_not]
    intro hxc
    have hs := ha x hx
    rw [hxc] at hs
    simp [hs] at hc
  rw [hA, if_neg (Nat.lt_irrefl _), List.findIdx_append,
    if_pos (List.findIdx_lt_length_of_exists ⟨c, hm, by simp⟩), Nat.add_comm]

theorem mem_pyStrip_of_not_space {s : List Char} {c : Char}
    (hc : pyIsSpace c = false) (hmem : c ∈ s) : c ∈ pyStrip s := by
  obtain ⟨a, b, hdec, ha, hb⟩ := pyStrip_decomp s
  rw [hdec, List.mem_append, List.mem_append] at hmem
  rcases hmem with (h | h) | h
  · exact absurd (ha c h) (by simp [hc])
  · exact h
  · exact absurd (hb c h) (by simp [hc])

theorem strip_line_facts (l : List Char)
    (hb : '[' ∈ l) (he : ']' ∈ l) (hp : '|' ∈ l) :
    '[' ∈ pyStrip l ∧ ']' ∈ pyStrip l ∧ '|' ∈ pyStrip l ∧
    bracket_content (pyStrip l) = bracket_content l ∧
    question_text (pyStrip l) = question_text l ∧
    (bracket_end l < bracket_start l ↔
      bracket_end (pyStrip l) < bracket_start (pyStrip l)) := by
  have h1 : '[' ∈ pyStrip l := mem_pyStrip_of_not_space (by decide) hb
  have h2 : ']' ∈ pyStrip l := mem_pyStrip_of_not_space (by decide) he
  have h3 : '|' ∈ pyStrip l := mem_pyStrip_of_not_space (by decide) hp
  obtain ⟨a, b, hdec, ha, hspaces⟩ := pyStrip_decomp l
  have hstart : bracket_start l = a.length + bracket_start (pyStrip l) := by
    unfold bracket_start
    conv_lhs => rw [hdec]
    exact pyFind_space_decomp ha (by decide) h1
  have hend : bracket_end l = a.length + bracket_end (pyStrip l) := by
    unfold bracket_end
    conv_lhs => rw [hdec]
    exact pyFind_space_decomp ha (by decide) h2
  have hlt_bs : bracket_start (pyStrip l) < (pyStrip l).length :=
    List.findIdx_lt_length_of_exists ⟨'[', h1, by simp⟩
  have hlt_be : bracket_end (pyStrip l) < (pyStrip l).length :=
    List.findIdx_lt_length_of_exists ⟨']', h2, by simp⟩
  have hcontent : bracket_content l = bracket_content (pyStrip l) := by
    unfold bracket_content
    rw [hstart, hend]
    generalize hB : bracket_start (pyStrip l) = B at hlt_bs ⊢
    generalize hE : bracket_end (pyStrip l) = E at hlt_be ⊢
    have hsub : a.length + E - (a.length + B + 1) = E - (B + 1) := by omega
    have hleB : B + 1 ≤ (pyStrip l).length := hlt_bs
    conv_lhs => rw [hdec]
    rw [hsub, List.append_assoc, Nat.add_assoc, List.drop_append,
      List.drop_append_of_le_length hleB]
    have htk : E - (B + 1) ≤ ((pyStrip l).drop (B + 1)).length := by
      rw [List.length_drop]
      omega
    rw [List.take_append_of_le_length htk]
  have hqt : question_text l = question_text (pyStrip l) := by
    unfold question_text
    rw [hend]
    generalize hE : bracket_end (pyStrip l) = E at hlt_be ⊢
    have hleE : E + 1 ≤ (pyStrip l).length := hlt_be
    conv_lhs => rw [hdec]
    rw [List.append_assoc, Nat.add_assoc, List.drop_append,
      List.drop_append_of_le_length hleE]
    exact pyStrip_append_of_spaces hspaces
  exact ⟨h1, h2, h3, hcontent.symm, hqt.symm, by rw [hstart, hend]; omega⟩

theorem parseLine_eq_of_mem (l : List Char)
    (hb : '[' ∈ l) (he : ']' ∈ l) (hp : '|' ∈ l) :
    parseLine l =
      if 3 ≤ (header_parts l).length ∧ question_text l ≠ [] then
        some { category := String.mk ((header_parts l).getD 0 [])
               question := String.mk (question_text l)
               difficulty := String.mk ((header_parts l).getD 1 [])
               focus_area := String.mk ((header_parts l).getD 2 []) }
      else none := by
  obtain ⟨h1, h2, h3, hcontent, hqt, _⟩ := strip_line_facts l hb he hp
  have hhp : header_parts (pyStrip l) = header_parts l := by
    unfold header_parts
    rw [hcontent]
  have hne : ¬ (pyStrip l = []) := by
    intro h
    rw [h] at h1
    exact List.not_mem_nil _ h1
  simp only [parseLine]
  rw [if_neg hne, if_pos (show '[' ∈ pyStrip l ∧ ']' ∈ pyStrip l ∧ '|' ∈ pyStrip l
    from ⟨h1, h2, h3⟩), hhp, hqt]

/-! ## Claim theorems -/

/-- C1: every input line containing the bracket and pipe punctuation whose
first-bracket header splits into at least 3 trimmed parts and whose trimmed
remainder after the first closing bracket is non-empty yields exactly one
record, with category, difficulty and focus_area taken positionally from the
first three parts and question equal to the trimmed remainder; in particular
the line `[Technical|Hard|APIs] What is REST?` parses to the expected
record. -/
theorem C1_bracket_line_parses :
    (∀ l : List Char, '[' ∈ l → ']' ∈ l → '|' ∈ l →
      3 ≤ (header_parts l).length → question_text l ≠ [] →
      parseLine l = some
        { category := String.mk ((header_parts l).getD 0 [])
          question := String.mk (question_text l)
          difficulty := String.mk ((header_parts l).getD 1 [])
          focus_area := String.mk ((header_parts l).getD 2 []) }) ∧
    parseLine (String.data "[Technical|Hard|APIs] What is REST?") = some
      { category := "Technical", question := "What is REST?",
        difficulty := "Hard", focus_area := "APIs" } := by
  constructor
  · intro l hb he hp hparts hq
    rw [parseLine_eq_of_mem l hb he hp, if_pos ⟨hparts, hq⟩]
  · decide

/-- Witness for C1: the general statement applied to the concrete line of
the claim. -/
theorem C1_bracket_line_parses_witness :
    parseLine (String.data "[Technical|Hard|APIs] What is REST?") = some
      { category := "Technical", question := "What is REST?",
        difficulty := "Hard", focus_area := "APIs" } :=
  (C1_bracket_line_parses.1 (String.data "[Technical|Hard|APIs] What is REST?")
    (by decide) (by decide) (by decide) (by decide) (by decide)).trans (by decide)

/-- C6: a line whose header splits into exactly 2 parts yields no record
even when it contains the punctuation; a line whose text after the first
closing bracket is empty or whitespace-only yields no record; and only the
first bracket pair of a line is used (the concrete multi-bracket line keeps
the later group inside the question text). -/
theorem C6_rejection_rules :
    (∀ l : List Char, '[' ∈ l → ']' ∈ l → '|' ∈ l →
      (header_parts l).length = 2 → parseLine l = none) ∧
    (∀ l : List Char, '[' ∈ l → ']' ∈ l → '|' ∈ l →
      question_text l = [] → parseLine l = none) ∧
    parseLine (String.data "[A|B] missing third field") = none ∧
    parseLine (String.data "[X|Y|Z]   ") = none ∧
    parseLine (String.data "[A|B|C] x [D|E|F] y") = some
      { category := "A", question := "x [D|E|F] y",
        difficulty := "B", focus_area := "C" } := by
  refine ⟨?_, ?_, by decide, by decide, by decide⟩
  · intro l hb he hp hlen
    rw [parseLine_eq_of_mem l hb he hp, if_neg]
    intro hcon
    have h3 := hcon.1
    rw [hlen] at h3
    omega
  · intro l hb he hp hqt
    rw [parseLine_eq_of_mem l hb he hp, if_neg]
    intro hcon
    exact hcon.2 hqt

/-- Witness for C6: the two-part-header rule applied to a concrete line. -/
theorem C6_rejection_rules_witness :
    parseLine (String.data "[Behavioral|Easy] tell me more") = none :=
  C6_rejection_rules.1 (String.data "[Behavioral|Easy] tell me more")
    (by decide) (by decide) (by decide) (by decide)

/-- C10: when the first closing bracket of a line comes before its first
opening bracket, the extracted header slice is empty, splits into fewer
than 3 parts, and the line yields no record. -/
theorem C10_reversed_brackets (l : List Char)
    (hb : '[' ∈ l) (he : ']' ∈ l) (hp : '|' ∈ l)
    (horder : bracket_end l < bracket_start l) :
    bracket_content l = [] ∧ (header_parts l).length < 3 ∧
    parseLine l = none := by
  have hbc : bracket_content l = [] := by
    unfold bracket_content
    have hz : bracket_end l - (bracket_start l + 1) = 0 := by omega
    rw [hz, List.take_zero]
  have hlen : (header_parts l).length = 1 := by
    unfold header_parts
    rw [hbc]
    rfl
  refine ⟨hbc, by omega, ?_⟩
  rw [parseLine_eq_of_mem l hb he hp, if_neg]
  intro hcon
  have h3 := hcon.1
  rw [hlen] at h3
  omega

/-- Witness for C10: a concrete line whose first closing bracket precedes
its first opening bracket. -/
theorem C10_reversed_brackets_witness :
    bracket_content (String.data "]|[") = [] ∧
    (header_parts (String.data "]|[")).length < 3 ∧
    parseLine (String.data "]|[") = none :=
  C10_reversed_brackets (String.data "]|[")
    (by decide) (by decide) (by decide) (by decide)

/-- C2: when no line of the response parses, the parser returns exactly
the first `min n 10` entries of the fallback list, in the fallback list's
order. -/
theorem C2_fallback_when_no_valid_lines (t : String) (n : Nat)
    (h : parsedQuestions t = []) :
    parse_gemini_questions t n = fallback_questions.take n ∧
    (parse_gemini_questions t n).length = min n 10 := by
  have hq : questionsAfterFallback t n = fallback_questions.take n := by
    unfold questionsAfterFallback
    rw [h]
    simp
  have hmain : parse_gemini_questions t n = fallback_questions.take n := by
    unfold parse_gemini_questions
    rw [hq]
    by_cases hn : fallback_questions.take n = []
    · rw [if_pos hn, hn]
    · rw [if_neg hn, List.take_take, Nat.min_self]
  refine ⟨hmain, ?_⟩
  rw [hmain, List.length_take]
  rfl

/-- Witness for C2: a response with no valid bracketed line, target 4. -/
theorem C2_fallback_when_no_valid_lines_witness :
    parse_gemini_questions "nothing to parse here" 4 =
      fallback_questions.take 4 ∧
    (parse_gemini_questions "nothing to parse here" 4).length = min 4 10 :=
  C2_fallback_when_no_valid_lines "nothing to parse here" 4 (by decide)

/-- C3: when at least 3 lines parse and the target count is at least the
number of parsed records, the parser returns exactly the parsed records in
line order, with no fallback records appended. -/
theorem C3_parsed_returned_without_fallback (t : String) (n : Nat)
    (h3 : 3 ≤ (parsedQuestions t).length)
    (hn : (parsedQuestions t).length ≤ n) :
    parse_gemini_questions t n = parsedQuestions t := by
  have hq : questionsAfterFallback t n = parsedQuestions t := by
    unfold questionsAfterFallback
    rw [if_neg (by omega)]
  unfold parse_gemini_questions
  rw [hq, if_neg (by
    intro hnil
    rw [hnil] at h3
    simp at h3), List.take_of_length_le hn]

/-- Witness for C3: three valid lines, target 5. -/
theorem C3_parsed_returned_without_fallback_witness :
    parse_gemini_questions
      "[Technical|Easy|SQL] Define a join.\n[Behavioral|Medium|Teamwork] Describe a conflict.\n[Experience|Hard|Scaling] How did you scale a service?" 5 =
    parsedQuestions
      "[Technical|Easy|SQL] Define a join.\n[Behavioral|Medium|Teamwork] Describe a conflict.\n[Experience|Hard|Scaling] How did you scale a service?" :=
  C3_parsed_returned_without_fallback _ 5 (by decide) (by decide)

/-- C4: the parser never returns more than `n` records, and when more than
`n` lines parse it returns exactly the records of the first `n` valid lines
in their original order. -/
theorem C4_truncation (t : String) (n : Nat) :
    (parse_gemini_questions t n).length ≤ n ∧
    (n < (parsedQuestions t).length →
      parse_gemini_questions t n = (parsedQuestions t).take n) := by
  constructor
  · unfold parse_gemini_questions
    by_cases h : questionsAfterFallback t n = []
    · rw [if_pos h]
      simp
    · rw [if_neg h, List.length_take]
      exact Nat.min_le_left _ _
  · intro hlt
    have hq : questionsAfterFallback t n = parsedQuestions t := by
      unfold questionsAfterFallback
      by_cases hc : (parsedQuestions t).length < 3
      · rw [if_pos hc]
        have hz : n - (parsedQuestions t).length = 0 := by omega
        rw [hz, List.take_zero, List.append_nil]
      · rw [if_neg hc]
    unfold parse_gemini_questions
    rw [hq, if_neg (by
      intro hnil
      rw [hnil] at hlt
      simp at hlt)]

/-- Witness for C4: four valid lines, target 2. -/
theorem C4_truncation_witness :
    (parse_gemini_questions
      "[T|E|A] one\n[T|E|B] two\n[T|E|C] three\n[T|E|D] four" 2).length ≤ 2 ∧
    parse_gemini_questions
      "[T|E|A] one\n[T|E|B] two\n[T|E|C] three\n[T|E|D] four" 2 =
    (parsedQuestions
      "[T|E|A] one\n[T|E|B] two\n[T|E|C] three\n[T|E|D] four").take 2 :=
  ⟨(C4_truncation "[T|E|A] one\n[T|E|B] two\n[T|E|C] three\n[T|E|D] four" 2).1,
   (C4_truncation "[T|E|A] one\n[T|E|B] two\n[T|E|C] three\n[T|E|D] four" 2).2
     (by decide)⟩

/-- C5 counterexample: with target count 0 and one parsed line, one record
exists after the fallback step, yet the parser returns the empty list — so
the claim as stated (for every target count) fails. -/
theorem C5_counterexample_zero_count :
    questionsAfterFallback "[A|B|C] q" 0 ≠ [] ∧
    parse_gemini_questions "[A|B|C] q" 0 = [] := by
  exact ⟨by decide, by decide⟩

/-- C5 (amended to target counts of at least 1): the parser returns the
empty list exactly when zero records exist after the fallback step. -/
theorem C5_empty_iff_no_records (t : String) (n : Nat) (hn : 1 ≤ n) :
    (parse_gemini_questions t n = [] ↔ questionsAfterFallback t n = []) := by
  unfold parse_gemini_questions
  by_cases h : questionsAfterFallback t n = []
  · rw [if_pos h]
    simp [h]
  · rw [if_neg h]
    constructor
    · intro htake
      rcases List.take_eq_nil_iff.mp htake with h0 | hnil
      · omega
      · exact absurd hnil h
    · intro hnil
      exact absurd hnil h

/-- Witness for C5 (amended): a concrete response and target count 5. -/
theorem C5_empty_iff_no_records_witness :
    parse_gemini_questions "x" 5 = [] ↔ questionsAfterFallback "x" 5 = [] :=
  C5_empty_iff_no_records "x" 5 (by decide)

/-- C7: when the external generation call fails, the generation function
yields no records and at least one user-visible error message, and the
session state — in particular the previously displayed record set — is left
unchanged. -/
theorem C7_generation_failure_preserves_state (s : AppState) (e : String)
    (n : Nat) :
    (generate_questions_with_gemini (Except.error e) n).1 = [] ∧
    (handleGeneration s (Except.error e) n).1 = s ∧
    (handleGeneration s (Except.error e) n).2 ≠ [] := by
  refine ⟨rfl, ?_, ?_⟩
  · simp [handleGeneration, generate_questions_with_gemini]
  · simp [handleGeneration, generate_questions_with_gemini]

/-- C8: the two sequential filters of `main` compute exactly the records
satisfying the conjunction of the per-field equality predicates, with
`"All"` matching every record, and the filtered list is a sublist of the
unfiltered one (same elements by identity, in the same order). -/
theorem C8_filter_conjunction (df cf : String)
    (qs : List InterviewQuestion) :
    filter_questions df cf qs = qs.filter (fun q =>
      decide ((df = "All" ∨ q.difficulty = df) ∧
              (cf = "All" ∨ q.category = cf))) ∧
    (filter_questions df cf qs).Sublist qs := by
  have hmain : filter_questions df cf qs = qs.filter (fun q =>
      decide ((df = "All" ∨ q.difficulty = df) ∧
              (cf = "All" ∨ q.category = cf))) := by
    by_cases hd : df = "All"
    · by_cases hc : cf = "All"
      · subst hd
        subst hc
        simp [filter_questions]
      · subst hd
        simp [filter_questions, hc]
    · by_cases hc : cf = "All"
      · subst hc
        simp [filter_questions, hd]
      · simp [filter_questions, hd, hc, List.filter_filter]
        exact List.filter_congr fun x _ => Bool.and_comm _ _
  refine ⟨hmain, ?_⟩
  rw [hmain]
  exact List.filter_sublist qs

/-- C9: the structured JSON export has one object per filtered record, in
order, whose fields copy the record's fields and whose question_number is
the record's 1-based position. -/
theorem C9_json_export (qs : List InterviewQuestion) :
    (questions_json qs).length = qs.length ∧
    ∀ i : Nat, (questions_json qs)[i]? = (qs[i]?).map (fun q =>
      { question_number := i + 1
        category := q.category
        question := q.question
        difficulty := q.difficulty
        focus_area := q.focus_area }) := by
  constructor
  · simp [questions_json]
  · intro i
    simp only [questions_json, List.getElem?_map, List.getElem?_enum]
    cases qs[i]? <;> rfl

end AIInterview
